import Mathlib

/-!
Verification of the equity-dilution and exit-waterfall calculator of the
vestige-scenario-forge dashboard, together with its Supabase gateway layer.

The data model follows `src/types/database.ts`.  The calculator arithmetic is
embedded twice:

* over `ℚ` (exact rational arithmetic), faithful to the JavaScript code for
  finite inputs — every `reduce` becomes a `foldl`, every guard is kept; this
  is the embedding the "exact over rational arithmetic" claims are settled on;
* over `JSNum`, a four-point extension of `ℚ` with `inf`, `ninf` and `nan`
  following IEEE-754 special-value semantics for the operations the code uses,
  so that the behaviour on a zero valuation (JavaScript `x / 0`) and on an
  infinite parsed exit valuation is captured exactly.

The gateway (`SupabaseFunctions` in `src/lib/supabase-functions.ts`) is
embedded by passing the outcome of each underlying storage call explicitly:
each call is an `Except DbErr α` (the `{data, error}` pair supabase resolves
with), and the stateful variant of `createScenario` threads a `Store` value
recording which rows each insert committed.
-/

/-- Mirrors `Scenario` in `src/types/database.ts`. -/
structure Scenario where
  id : String
  user_id : String
  name : String
  created_at : String
  updated_at : String
deriving DecidableEq

/-- Mirrors `Founder` in `src/types/database.ts`; `equity` is the raw
percentage, embedded as an exact rational. -/
structure Founder where
  id : String
  scenario_id : String
  name : String
  equity : ℚ
deriving DecidableEq

/-- Mirrors `Round` in `src/types/database.ts`. -/
structure Round where
  id : String
  scenario_id : String
  round_name : String
  investment : ℚ
  valuation : ℚ
deriving DecidableEq

/-- Mirrors `ESOP` in `src/types/database.ts`. -/
structure ESOP where
  id : String
  scenario_id : String
  percentage : ℚ
deriving DecidableEq

/-- Mirrors `ScenarioData` in `src/types/database.ts`: the aggregate the
calculator consumes. -/
structure ScenarioData where
  scenario : Scenario
  founders : List Founder
  rounds : List Round
  esop : List ESOP
deriving DecidableEq

/-- `scenarioData.rounds.reduce((sum, round) => sum + round.investment, 0)`
(ExitTab line 26, AnalysisTab line 24, MetricsCards `totalFunding`). -/
def totalInvestment (s : ScenarioData) : ℚ :=
  s.rounds.foldl (fun sum r => sum + r.investment) 0

/-- `scenarioData.founders.reduce((sum, founder) => sum + founder.equity, 0)`
(ExitTab line 27, AnalysisTab line 30). -/
def founderEquity (s : ScenarioData) : ℚ :=
  s.founders.foldl (fun sum f => sum + f.equity) 0

/-- `scenarioData.esop[0]?.percentage || 0` (ExitTab line 28, AnalysisTab
line 31): the percentage of the first ESOP record, or 0 when absent.  The
JavaScript `|| 0` also maps a stored percentage of 0 to 0, which coincides. -/
def esopEquity (s : ScenarioData) : ℚ :=
  match s.esop.head? with
  | some e => e.percentage
  | none => 0

/-- `rounds.reduce((total, round) => total + (round.investment / round.valuation) * 100, 0)`
(ExitTab lines 31–34, AnalysisTab lines 34–38).  Over `ℚ` a zero valuation
contributes `investment / 0 = 0`; the `JSNum` embedding below keeps the
JavaScript `Infinity` behaviour. -/
def investorEquity (s : ScenarioData) : ℚ :=
  s.rounds.foldl (fun total r => total + r.investment / r.valuation * 100) 0

/-- `founderEquity + esopEquity + investorEquity` (ExitTab line 36,
AnalysisTab line 40). -/
def totalEquity (s : ScenarioData) : ℚ :=
  founderEquity s + esopEquity s + investorEquity s

/-- `totalEquity > 0 ? (founderEquity / totalEquity) * 100 : founderEquity`
(ExitTab line 39, AnalysisTab line 43). -/
def dilutedFounderEquity (s : ScenarioData) : ℚ :=
  if totalEquity s > 0 then founderEquity s / totalEquity s * 100 else founderEquity s

/-- `totalEquity > 0 ? (esopEquity / totalEquity) * 100 : esopEquity`
(ExitTab line 40, AnalysisTab line 44). -/
def dilutedEsopEquity (s : ScenarioData) : ℚ :=
  if totalEquity s > 0 then esopEquity s / totalEquity s * 100 else esopEquity s

/-- `totalEquity > 0 ? (investorEquity / totalEquity) * 100 : investorEquity`
(ExitTab line 41, AnalysisTab line 45). -/
def dilutedInvestorEquity (s : ScenarioData) : ℚ :=
  if totalEquity s > 0 then investorEquity s / totalEquity s * 100 else investorEquity s

/-- Per-founder `currentEquity` (ExitTab line 53, AnalysisTab line 115):
`totalEquity > 0 ? (founder.equity / totalEquity) * 100 : founder.equity`. -/
def founderCurrentEquity (s : ScenarioData) (f : Founder) : ℚ :=
  if totalEquity s > 0 then f.equity / totalEquity s * 100 else f.equity

/-- One row of ExitTab's `founderBreakdown` (lines 52–61). -/
structure FounderBreakdownRow where
  name : String
  originalEquity : ℚ
  currentEquity : ℚ
  proceeds : ℚ
deriving DecidableEq

/-- The object passed to `setExitResults` (ExitTab lines 63–72). -/
structure ExitResults where
  exitValuation : ℚ
  exitType : String
  founderProceeds : ℚ
  esopProceeds : ℚ
  investorProceeds : ℚ
  investorReturn : ℚ
  founderBreakdown : List FounderBreakdownRow
  totalInvestment : ℚ
deriving DecidableEq

/-- The body of `calculateExit` (ExitTab lines 25–72) after the input guard
has passed, over exact rationals: proceeds are `dilutedShare / 100 *
valuation`, and `investorReturn` is guarded by `totalInvestment > 0`. -/
def calculateExitResults (s : ScenarioData) (valuation : ℚ) (exitType : String) :
    ExitResults :=
  let founderProceeds := dilutedFounderEquity s / 100 * valuation
  let esopProceeds := dilutedEsopEquity s / 100 * valuation
  let investorProceeds := dilutedInvestorEquity s / 100 * valuation
  let investorReturn :=
    if totalInvestment s > 0 then investorProceeds / totalInvestment s else 0
  { exitValuation := valuation
    exitType := exitType
    founderProceeds := founderProceeds
    esopProceeds := esopProceeds
    investorProceeds := investorProceeds
    investorReturn := investorReturn
    founderBreakdown := s.founders.map (fun f =>
      { name := f.name
        originalEquity := f.equity
        currentEquity := founderCurrentEquity s f
        proceeds := founderCurrentEquity s f / 100 * valuation })
    totalInvestment := totalInvestment s }

/-- The spec's worked scenario: founders Alice 60 and Bob 40, one round of
1,000,000 at a 5,000,000 post-money valuation, ESOP 10 %. -/
def specScenario : ScenarioData :=
  { scenario := { id := "s1", user_id := "u1", name := "Spec", created_at := "", updated_at := "" }
    founders :=
      [ { id := "f1", scenario_id := "s1", name := "Alice", equity := 60 }
      , { id := "f2", scenario_id := "s1", name := "Bob", equity := 40 } ]
    rounds := [ { id := "r1", scenario_id := "s1", round_name := "Seed",
                  investment := 1000000, valuation := 5000000 } ]
    esop := [ { id := "e1", scenario_id := "s1", percentage := 10 } ] }

/-- C1: on the spec's worked scenario the round gives 20 equity units, total
equity is 130, the diluted class shares are 100/130·100, 20/130·100 and
10/130·100, and an exit at 10,000,000 yields investor proceeds of
(20/130)·10,000,000 with a return multiple of those proceeds over the
1,000,000 invested. -/
theorem spec_scenario_values :
    investorEquity specScenario = 20 ∧
    totalEquity specScenario = 130 ∧
    dilutedFounderEquity specScenario = 100 / 130 * 100 ∧
    dilutedInvestorEquity specScenario = 20 / 130 * 100 ∧
    dilutedEsopEquity specScenario = 10 / 130 * 100 ∧
    (calculateExitResults specScenario 10000000 "acquisition").investorProceeds
      = 20 / 130 * 10000000 ∧
    (calculateExitResults specScenario 10000000 "acquisition").investorReturn
      = 20 / 130 * 10000000 / 1000000 := by
  norm_num [investorEquity, totalEquity, founderEquity, esopEquity,
    dilutedFounderEquity, dilutedInvestorEquity, dilutedEsopEquity,
    calculateExitResults, totalInvestment, specScenario]

/-- Shared algebra: whenever `totalEquity` is positive the three diluted
class shares are `class / totalEquity * 100`, and since `totalEquity` is by
definition the sum of the three raw classes, the diluted shares sum to 100. -/
lemma dilutedSum_eq_100 (s : ScenarioData) (h : 0 < totalEquity s) :
    dilutedFounderEquity s + dilutedEsopEquity s + dilutedInvestorEquity s = 100 := by
  have ht : totalEquity s ≠ 0 := ne_of_gt h
  have hsum : founderEquity s + esopEquity s + investorEquity s = totalEquity s := rfl
  simp only [dilutedFounderEquity, dilutedEsopEquity, dilutedInvestorEquity,
    gt_iff_lt, if_pos h]
  field_simp
  linarith [hsum]

/-- C2: for every aggregate with positive total equity, the diluted founder,
investor and ESOP shares sum to exactly 100 over rational arithmetic. -/
theorem diluted_shares_sum_to_100 (s : ScenarioData) (h : 0 < totalEquity s) :
    dilutedFounderEquity s + dilutedInvestorEquity s + dilutedEsopEquity s = 100 := by
  linarith [dilutedSum_eq_100 s h]

/-- Witness for C2: the spec's worked scenario has positive total equity and
its diluted shares sum to 100. -/
theorem diluted_shares_sum_to_100_witness :
    0 < totalEquity specScenario ∧
    dilutedFounderEquity specScenario + dilutedInvestorEquity specScenario +
      dilutedEsopEquity specScenario = 100 :=
  ⟨by norm_num [totalEquity, founderEquity, esopEquity, investorEquity, specScenario],
   diluted_shares_sum_to_100 specScenario
     (by norm_num [totalEquity, founderEquity, esopEquity, investorEquity, specScenario])⟩

/-- C3: for every aggregate with positive total equity and every exit
valuation, the three class proceeds of `calculateExit` sum to exactly the exit
valuation. -/
theorem exit_proceeds_conserved (s : ScenarioData) (v : ℚ) (ty : String)
    (h : 0 < totalEquity s) :
    (calculateExitResults s v ty).founderProceeds
      + (calculateExitResults s v ty).esopProceeds
      + (calculateExitResults s v ty).investorProceeds = v := by
  have hsum := dilutedSum_eq_100 s h
  simp only [calculateExitResults]
  have : dilutedFounderEquity s / 100 * v + dilutedEsopEquity s / 100 * v
      + dilutedInvestorEquity s / 100 * v
      = (dilutedFounderEquity s + dilutedEsopEquity s + dilutedInvestorEquity s) / 100 * v := by
    ring
  rw [this, hsum]
  norm_num

/-- Witness for C3: on the spec's worked scenario, an exit at 10,000,000 is
fully distributed across the three classes. -/
theorem exit_proceeds_conserved_witness :
    0 < totalEquity specScenario ∧
    (calculateExitResults specScenario 10000000 "acquisition").founderProceeds
      + (calculateExitResults specScenario 10000000 "acquisition").esopProceeds
      + (calculateExitResults specScenario 10000000 "acquisition").investorProceeds
      = 10000000 :=
  ⟨by norm_num [totalEquity, founderEquity, esopEquity, investorEquity, specScenario],
   exit_proceeds_conserved specScenario 10000000 "acquisition"
     (by norm_num [totalEquity, founderEquity, esopEquity, investorEquity, specScenario])⟩

/-- C6: when the rounds' investments sum to 0, `calculateExit` returns an
investor return multiple of 0 — the division by `totalInvestment` is behind
the guard `totalInvestment > 0` and is never taken. -/
theorem investor_return_zero_of_no_investment (s : ScenarioData) (v : ℚ)
    (ty : String) (h : totalInvestment s = 0) :
    (calculateExitResults s v ty).investorReturn = 0 := by
  simp [calculateExitResults, h]

/-- Witness for C6: a scenario with no rounds has zero total investment and a
zero return multiple. -/
def noRoundScenario : ScenarioData :=
  { scenario := { id := "s2", user_id := "u1", name := "NoRounds",
                  created_at := "", updated_at := "" }
    founders := [ { id := "f3", scenario_id := "s2", name := "Solo", equity := 60 } ]
    rounds := []
    esop := [] }

/-- Witness for C6 at `noRoundScenario`. -/
theorem investor_return_zero_of_no_investment_witness :
    totalInvestment noRoundScenario = 0 ∧
    (calculateExitResults noRoundScenario 10000000 "ipo").investorReturn = 0 :=
  ⟨by norm_num [totalInvestment, noRoundScenario],
   investor_return_zero_of_no_investment noRoundScenario 10000000 "ipo"
     (by norm_num [totalInvestment, noRoundScenario])⟩

/-- The single founder of `noRoundScenario`. -/
def soloFounder : Founder :=
  { id := "f3", scenario_id := "s2", name := "Solo", equity := 60 }

/-- C5 counterexample: in an aggregate with no rounds and no ESOP but a single
founder holding 60 raw units, `totalEquity = 60 > 0`, so the per-founder
diluted share is renormalized to `60 / 60 * 100 = 100`, not passed through
unchanged: the raw-equity passthrough claimed for every such aggregate fails
here. -/
theorem passthrough_counterexample :
    noRoundScenario.rounds = [] ∧ noRoundScenario.esop = [] ∧
    soloFounder ∈ noRoundScenario.founders ∧
    soloFounder.equity = 60 ∧
    founderCurrentEquity noRoundScenario soloFounder = 100 ∧
    founderCurrentEquity noRoundScenario soloFounder ≠ soloFounder.equity := by
  refine ⟨rfl, rfl, by simp [noRoundScenario, soloFounder], rfl, ?_, ?_⟩ <;>
    norm_num [founderCurrentEquity, totalEquity, founderEquity, esopEquity,
      investorEquity, noRoundScenario, soloFounder]

/-- C5 amended: with no rounds and no ESOP, the diluted share of each founder
is the raw equity renormalized over the founder-equity sum; it equals the raw
percentage exactly when the founder equities sum to 100 (the normalized
case). -/
theorem passthrough_of_normalized (s : ScenarioData) (f : Founder)
    (hr : s.rounds = []) (he : s.esop = []) (hf : f ∈ s.founders)
    (hsum : founderEquity s = 100) :
    founderCurrentEquity s f = f.equity := by
  have hinv : investorEquity s = 0 := by simp [investorEquity, hr]
  have hesop : esopEquity s = 0 := by simp [esopEquity, he]
  have ht : totalEquity s = 100 := by
    simp [totalEquity, hinv, hesop, hsum]
  rw [founderCurrentEquity, ht]
  norm_num

/-- A two-founder aggregate whose equities sum to 100, with no rounds and no
ESOP. -/
def preRoundScenario : ScenarioData :=
  { scenario := { id := "s3", user_id := "u1", name := "PreRound",
                  created_at := "", updated_at := "" }
    founders :=
      [ { id := "f4", scenario_id := "s3", name := "Alice", equity := 60 }
      , { id := "f5", scenario_id := "s3", name := "Bob", equity := 40 } ]
    rounds := []
    esop := [] }

/-- Alice's row in `preRoundScenario`. -/
def aliceFounder : Founder :=
  { id := "f4", scenario_id := "s3", name := "Alice", equity := 60 }

/-- Witness for the amended C5: Alice holds 60 of a 100-unit founder pool, no
rounds and no ESOP, and her diluted share is exactly her raw 60. -/
theorem passthrough_of_normalized_witness :
    preRoundScenario.rounds = [] ∧ preRoundScenario.esop = [] ∧
    aliceFounder ∈ preRoundScenario.founders ∧
    founderEquity preRoundScenario = 100 ∧
    founderCurrentEquity preRoundScenario aliceFounder = aliceFounder.equity :=
  ⟨rfl, rfl, by simp [preRoundScenario, aliceFounder],
   by norm_num [founderEquity, preRoundScenario],
   passthrough_of_normalized preRoundScenario aliceFounder rfl rfl
     (by simp [preRoundScenario, aliceFounder])
     (by norm_num [founderEquity, preRoundScenario])⟩

/-- A JavaScript number as the calculator sees it: a finite value (kept exact
as a rational), positive or negative infinity, or NaN.  Signed zero is not
modelled; the code only ever reaches `x / 0` with the positive zero produced
by `parseFloat(...) || 0`. -/
inductive JSNum where
  | num (q : ℚ)
  | inf
  | ninf
  | nan
deriving DecidableEq

/-- JavaScript `isNaN` on an already-parsed number. -/
def JSNum.isNaN : JSNum → Bool
  | nan => true
  | _ => false

/-- JavaScript `Number.isFinite`. -/
def JSNum.isFinite : JSNum → Bool
  | num _ => true
  | _ => false

/-- IEEE-754 addition on the modelled values. -/
def JSNum.add : JSNum → JSNum → JSNum
  | nan, _ => nan
  | _, nan => nan
  | inf, ninf => nan
  | ninf, inf => nan
  | inf, _ => inf
  | _, inf => inf
  | ninf, _ => ninf
  | _, ninf => ninf
  | num a, num b => num (a + b)

/-- IEEE-754 multiplication on the modelled values. -/
def JSNum.mul : JSNum → JSNum → JSNum
  | nan, _ => nan
  | _, nan => nan
  | inf, inf => inf
  | inf, ninf => ninf
  | ninf, inf => ninf
  | ninf, ninf => inf
  | inf, num b => if 0 < b then inf else if b < 0 then ninf else nan
  | num a, inf => if 0 < a then inf else if a < 0 then ninf else nan
  | ninf, num b => if 0 < b then ninf else if b < 0 then inf else nan
  | num a, ninf => if 0 < a then ninf else if a < 0 then inf else nan
  | num a, num b => num (a * b)

/-- IEEE-754 division on the modelled values: a positive finite value divided
by (positive) zero is `inf`, a negative one is `ninf`, and `0 / 0` is `nan`;
`inf / inf` is `nan`. -/
def JSNum.div : JSNum → JSNum → JSNum
  | nan, _ => nan
  | _, nan => nan
  | inf, inf => nan
  | inf, ninf => nan
  | ninf, inf => nan
  | ninf, ninf => nan
  | inf, num b => if b < 0 then ninf else inf
  | ninf, num b => if b < 0 then inf else ninf
  | num _, inf => num 0
  | num _, ninf => num 0
  | num a, num b =>
    if b = 0 then (if 0 < a then inf else if a < 0 then ninf else nan)
    else num (a / b)

/-- JavaScript `<`: any comparison with NaN is false. -/
def JSNum.lt : JSNum → JSNum → Bool
  | nan, _ => false
  | _, nan => false
  | inf, _ => false
  | ninf, ninf => false
  | ninf, _ => true
  | num _, inf => true
  | num _, ninf => false
  | num a, num b => decide (a < b)

/-- JavaScript `<=`: any comparison with NaN is false. -/
def JSNum.le : JSNum → JSNum → Bool
  | nan, _ => false
  | _, nan => false
  | ninf, _ => true
  | _, inf => true
  | inf, _ => false
  | num _, ninf => false
  | num a, num b => decide (a ≤ b)

/-- `founderEquity` of ExitTab line 27 under JavaScript number semantics. -/
def founderEquityJS (s : ScenarioData) : JSNum :=
  s.founders.foldl (fun sum f => sum.add (JSNum.num f.equity)) (JSNum.num 0)

/-- `esopEquity` of ExitTab line 28 under JavaScript number semantics. -/
def esopEquityJS (s : ScenarioData) : JSNum :=
  match s.esop.head? with
  | some e => JSNum.num e.percentage
  | none => JSNum.num 0

/-- `investorEquity` of ExitTab lines 31–34 under JavaScript number
semantics: the division by `round.valuation` is NOT guarded, so a zero
valuation with positive investment contributes `inf`. -/
def investorEquityJS (s : ScenarioData) : JSNum :=
  s.rounds.foldl
    (fun total r =>
      total.add (((JSNum.num r.investment).div (JSNum.num r.valuation)).mul (JSNum.num 100)))
    (JSNum.num 0)

/-- `totalEquity` of ExitTab line 36 under JavaScript number semantics. -/
def totalEquityJS (s : ScenarioData) : JSNum :=
  ((founderEquityJS s).add (esopEquityJS s)).add (investorEquityJS s)

/-- `totalInvestment` of ExitTab line 26 under JavaScript number semantics. -/
def totalInvestmentJS (s : ScenarioData) : JSNum :=
  s.rounds.foldl (fun sum r => sum.add (JSNum.num r.investment)) (JSNum.num 0)

/-- ExitTab line 39 under JavaScript number semantics (`x > 0` is `0 < x`). -/
def dilutedFounderEquityJS (s : ScenarioData) : JSNum :=
  if (JSNum.num 0).lt (totalEquityJS s) then
    ((founderEquityJS s).div (totalEquityJS s)).mul (JSNum.num 100)
  else founderEquityJS s

/-- ExitTab line 40 under JavaScript number semantics. -/
def dilutedEsopEquityJS (s : ScenarioData) : JSNum :=
  if (JSNum.num 0).lt (totalEquityJS s) then
    ((esopEquityJS s).div (totalEquityJS s)).mul (JSNum.num 100)
  else esopEquityJS s

/-- ExitTab line 41 (and AnalysisTab line 45) under JavaScript number
semantics. -/
def dilutedInvestorEquityJS (s : ScenarioData) : JSNum :=
  if (JSNum.num 0).lt (totalEquityJS s) then
    ((investorEquityJS s).div (totalEquityJS s)).mul (JSNum.num 100)
  else investorEquityJS s

/-- Per-founder `currentEquity` (ExitTab line 53) under JavaScript number
semantics. -/
def founderCurrentEquityJS (s : ScenarioData) (f : Founder) : JSNum :=
  if (JSNum.num 0).lt (totalEquityJS s) then
    ((JSNum.num f.equity).div (totalEquityJS s)).mul (JSNum.num 100)
  else JSNum.num f.equity

/-- One row of ExitTab's `founderBreakdown` under JavaScript number
semantics. -/
structure FounderBreakdownRowJS where
  name : String
  originalEquity : ℚ
  currentEquity : JSNum
  proceeds : JSNum
deriving DecidableEq

/-- The `exitResults` object under JavaScript number semantics. -/
structure ExitResultsJS where
  exitValuation : JSNum
  exitType : String
  founderProceeds : JSNum
  esopProceeds : JSNum
  investorProceeds : JSNum
  investorReturn : JSNum
  founderBreakdown : List FounderBreakdownRowJS
  totalInvestment : JSNum
deriving DecidableEq

/-- The body of `calculateExit` (ExitTab lines 25–72) under JavaScript number
semantics, after the input guard has passed. -/
def calculateExitJS (s : ScenarioData) (valuation : JSNum) (exitType : String) :
    ExitResultsJS :=
  let founderProceeds := ((dilutedFounderEquityJS s).div (JSNum.num 100)).mul valuation
  let esopProceeds := ((dilutedEsopEquityJS s).div (JSNum.num 100)).mul valuation
  let investorProceeds := ((dilutedInvestorEquityJS s).div (JSNum.num 100)).mul valuation
  let investorReturn :=
    if (JSNum.num 0).lt (totalInvestmentJS s) then
      investorProceeds.div (totalInvestmentJS s)
    else JSNum.num 0
  { exitValuation := valuation
    exitType := exitType
    founderProceeds := founderProceeds
    esopProceeds := esopProceeds
    investorProceeds := investorProceeds
    investorReturn := investorReturn
    founderBreakdown := s.founders.map (fun f =>
      { name := f.name
        originalEquity := f.equity
        currentEquity := founderCurrentEquityJS s f
        proceeds := ((founderCurrentEquityJS s f).div (JSNum.num 100)).mul valuation })
    totalInvestment := totalInvestmentJS s }

/-- `calculateExit` as a step on the stored `exitResults` state (ExitTab
lines 19–73): with no scenario, or when the parsed valuation is NaN or `<= 0`,
the function returns early and the stored result is kept.  The source also
returns early on the empty input string, whose `parseFloat` is NaN, so that
path is subsumed by the NaN case.  `parseFloat` is modelled as already done:
the argument is the parsed JavaScript number (note `parseFloat("1e999")` is
`Infinity`, which the guard does not reject). -/
def calculateExitStep (sd : Option ScenarioData) (parsedValuation : JSNum)
    (exitType : String) (prior : Option ExitResultsJS) : Option ExitResultsJS :=
  match sd with
  | none => prior
  | some s =>
    if parsedValuation.isNaN || parsedValuation.le (JSNum.num 0) then prior
    else some (calculateExitJS s parsedValuation exitType)

/-- An aggregate holding a round with valuation 0, reachable in the source:
FundingTab's round-update handler stores `parseFloat(e.target.value) || 0`,
so clearing the valuation field writes a 0 even though the add-round form
rejects non-positive valuations. -/
def zeroValScenario : ScenarioData :=
  { scenario := { id := "s4", user_id := "u1", name := "ZeroVal",
                  created_at := "", updated_at := "" }
    founders :=
      [ { id := "f6", scenario_id := "s4", name := "Alice", equity := 60 }
      , { id := "f7", scenario_id := "s4", name := "Bob", equity := 40 } ]
    rounds := [ { id := "r2", scenario_id := "s4", round_name := "Seed",
                  investment := 1000000, valuation := 0 } ]
    esop := [ { id := "e2", scenario_id := "s4", percentage := 10 } ] }

/-- C4: the code does NOT reject or exclude a round with valuation 0 — it
divides through.  On `zeroValScenario` the round contributes
`1000000 / 0 * 100 = Infinity` to the investor equity, so the diluted
investor share of the dilution computation and the investor proceeds and
return multiple of the exit computation all evaluate to NaN. -/
theorem zero_valuation_produces_nan :
    investorEquityJS zeroValScenario = JSNum.inf ∧
    dilutedInvestorEquityJS zeroValScenario = JSNum.nan ∧
    (calculateExitJS zeroValScenario (JSNum.num 10000000) "acquisition").investorProceeds
      = JSNum.nan ∧
    (calculateExitJS zeroValScenario (JSNum.num 10000000) "acquisition").investorReturn
      = JSNum.nan := by
  refine ⟨?_, ?_, ?_, ?_⟩ <;>
    norm_num [calculateExitJS, dilutedInvestorEquityJS, investorEquityJS,
      founderEquityJS, esopEquityJS, totalEquityJS, totalInvestmentJS,
      zeroValScenario, JSNum.div, JSNum.mul, JSNum.add, JSNum.lt]

/-- C7 counterexample: the guard in `calculateExit` checks only
`isNaN(valuation) || valuation <= 0`, not finiteness.  A parsed exit
valuation of `Infinity` (for instance the input string "1e999", which
`parseFloat` maps to `Infinity`) passes the guard, so a result IS produced
although the input does not parse as a finite number — refuting the claimed
"if and only if". -/
theorem exit_guard_infinity_counterexample :
    (calculateExitStep (some specScenario) JSNum.inf "acquisition" none).isSome = true ∧
    JSNum.inf.isFinite = false := by
  constructor
  · norm_num [calculateExitStep, JSNum.isNaN, JSNum.le]
  · rfl

/-- C7 amended: the exit computation produces a result iff the parsed
valuation is neither NaN nor `<= 0` under JavaScript comparison — for finite
parses this is exactly "finite and > 0", but `Infinity` also passes; on every
rejected input (and with no scenario loaded) the previously stored exit
result is left unchanged. -/
theorem exit_guard_amended (s : ScenarioData) (v : JSNum) (ty : String)
    (prior : Option ExitResultsJS) :
    ((calculateExitStep (some s) v ty none).isSome = true ↔
      (v.isNaN = false ∧ v.le (JSNum.num 0) = false)) ∧
    (v.isNaN = true ∨ v.le (JSNum.num 0) = true →
      calculateExitStep (some s) v ty prior = prior) ∧
    calculateExitStep none v ty prior = prior := by
  refine ⟨?_, ?_, rfl⟩
  · constructor
    · intro h
      by_contra hcon
      rw [not_and_or] at hcon
      rcases hcon with h1 | h2
      · rw [Bool.not_eq_false] at h1
        simp [calculateExitStep, h1] at h
      · rw [Bool.not_eq_false] at h2
        simp [calculateExitStep, h2] at h
    · rintro ⟨h1, h2⟩
      simp [calculateExitStep, h1, h2]
  · rintro (h | h) <;> simp [calculateExitStep, h]

/-- Witness for the amended C7: a NaN parse (for instance the empty or
non-numeric input string) leaves the stored result unchanged. -/
theorem exit_guard_amended_witness :
    calculateExitStep (some specScenario) JSNum.nan "ipo" none = none :=
  (exit_guard_amended specScenario JSNum.nan "ipo" none).2.1 (Or.inl rfl)

/-- Left-pad a digit string with zeros to width `k`. -/
def padZeros (k : ℕ) (s : String) : String :=
  String.mk (List.replicate (k - s.length) '0') ++ s

/-- The integer JavaScript `toFixed(f)` rounds `x` to: the `n` with
`n / 10^f` nearest `x`, ties picking the larger `n` (ECMA-262), which is
`⌊x * 10^f + 1/2⌋`. -/
def jsToFixedInt (f : ℕ) (x : ℚ) : ℤ :=
  ⌊x * (10 : ℚ) ^ f + 1 / 2⌋

/-- JavaScript `Number.prototype.toFixed(f)` on an exact rational: the
rounded integer of `jsToFixedInt`, rendered with `f` decimal places. -/
def jsToFixed (f : ℕ) (x : ℚ) : String :=
  let n := jsToFixedInt f x
  let sign := if n < 0 then "-" else ""
  let m : ℕ := n.natAbs
  if f = 0 then sign ++ toString m
  else sign ++ toString (m / 10 ^ f) ++ "." ++ padZeros f (toString (m % 10 ^ f))

/-- ExitTab's `formatCurrency` (lines 75–84): B, M and K bands all with two
decimals, plain `toFixed(0)` below 1000. -/
def formatCurrencyExit (amount : ℚ) : String :=
  if amount ≥ 1000000000 then "$" ++ jsToFixed 2 (amount / 1000000000) ++ "B"
  else if amount ≥ 1000000 then "$" ++ jsToFixed 2 (amount / 1000000) ++ "M"
  else if amount ≥ 1000 then "$" ++ jsToFixed 2 (amount / 1000) ++ "K"
  else "$" ++ jsToFixed 0 amount

/-- MetricsCards' `formatCurrency` (lines 14–21): no B band, M and K bands
with one decimal, `toFixed(1)` below 1000. -/
def formatCurrencyMetrics (amount : ℚ) : String :=
  if amount ≥ 1000000 then "$" ++ jsToFixed 1 (amount / 1000000) ++ "M"
  else if amount ≥ 1000 then "$" ++ jsToFixed 1 (amount / 1000) ++ "K"
  else "$" ++ jsToFixed 1 amount

/-- C8 counterexample: the claim's K band is `$X.XK` with one decimal, but
ExitTab's formatter uses `toFixed(2)` there: 1500 renders as "$1.50K", not
"$1.5K". -/
theorem format_k_band_counterexample :
    formatCurrencyExit 1500 = "$1.50K" ∧ formatCurrencyExit 1500 ≠ "$1.5K" := by
  have hfl : jsToFixedInt 2 (1500 / 1000 : ℚ) = 150 := by
    rw [jsToFixedInt, Int.floor_eq_iff]
    norm_num
  have h : formatCurrencyExit 1500 = "$" ++ jsToFixed 2 ((1500 : ℚ) / 1000) ++ "K" := by
    rw [formatCurrencyExit, if_neg (by norm_num), if_neg (by norm_num), if_pos (by norm_num)]
  have h2 : jsToFixed 2 ((1500 : ℚ) / 1000) = "1.50" := by
    simp only [jsToFixed, hfl]
    decide
  rw [h, h2]
  exact ⟨rfl, by decide⟩

/-- C8 amended: ExitTab's formatter maps `a ≥ 1e9` to `$` ++ two-decimal
`a/1e9` ++ `B`, `1e6 ≤ a < 1e9` to a two-decimal M amount, `1e3 ≤ a < 1e6` to
a TWO-decimal K amount, and `a < 1e3` to `$` ++ `toFixed(0)`; the
MetricsCards formatter has no B band (every `a ≥ 1e6`, including billions,
renders in the one-decimal M band), a one-decimal K band, and `toFixed(1)`
below 1000. -/
theorem format_currency_bands (a : ℚ) :
    (1000000000 ≤ a → formatCurrencyExit a = "$" ++ jsToFixed 2 (a / 1000000000) ++ "B") ∧
    (1000000 ≤ a → a < 1000000000 →
      formatCurrencyExit a = "$" ++ jsToFixed 2 (a / 1000000) ++ "M") ∧
    (1000 ≤ a → a < 1000000 →
      formatCurrencyExit a = "$" ++ jsToFixed 2 (a / 1000) ++ "K") ∧
    (a < 1000 → formatCurrencyExit a = "$" ++ jsToFixed 0 a) ∧
    (1000000 ≤ a → formatCurrencyMetrics a = "$" ++ jsToFixed 1 (a / 1000000) ++ "M") ∧
    (1000 ≤ a → a < 1000000 →
      formatCurrencyMetrics a = "$" ++ jsToFixed 1 (a / 1000) ++ "K") ∧
    (a < 1000 → formatCurrencyMetrics a = "$" ++ jsToFixed 1 a) := by
  refine ⟨?_, ?_, ?_, ?_, ?_, ?_, ?_⟩
  · intro h1
    rw [formatCurrencyExit, if_pos (by exact h1)]
  · intro h1 h2
    rw [formatCurrencyExit, if_neg (by exact not_le.mpr h2), if_pos (by exact h1)]
  · intro h1 h2
    rw [formatCurrencyExit, if_neg (by push_neg; linarith), if_neg (by exact not_le.mpr h2),
      if_pos (by exact h1)]
  · intro h1
    rw [formatCurrencyExit, if_neg (by push_neg; linarith), if_neg (by push_neg; linarith),
      if_neg (by exact not_le.mpr h1)]
  · intro h1
    rw [formatCurrencyMetrics, if_pos (by exact h1)]
  · intro h1 h2
    rw [formatCurrencyMetrics, if_neg (by exact not_le.mpr h2), if_pos (by exact h1)]
  · intro h1
    rw [formatCurrencyMetrics, if_neg (by push_neg; linarith), if_neg (by exact not_le.mpr h1)]

/-- Witness for the amended C8: the K band of ExitTab's formatter at 1500. -/
theorem format_currency_bands_witness :
    formatCurrencyExit 1500 = "$" ++ jsToFixed 2 ((1500 : ℚ) / 1000) ++ "K" :=
  (format_currency_bands 1500).2.2.1 (by norm_num) (by norm_num)

/-- A storage error as supabase reports it: the `error` member of the
`{ data, error }` pair each query resolves with. -/
structure DbErr where
  message : String
deriving DecidableEq

/-- `Omit<Founder, 'id' | 'scenario_id'>` of `CreateScenarioRequest`. -/
structure FounderInput where
  name : String
  equity : ℚ
deriving DecidableEq

/-- `Omit<Round, 'id' | 'scenario_id'>` of `CreateScenarioRequest`. -/
structure RoundInput where
  round_name : String
  investment : ℚ
  valuation : ℚ
deriving DecidableEq

/-- `Omit<ESOP, 'id' | 'scenario_id'>` of `CreateScenarioRequest`. -/
structure EsopInput where
  percentage : ℚ
deriving DecidableEq

/-- Mirrors `CreateScenarioRequest` in `src/types/database.ts`. -/
structure CreateScenarioRequest where
  name : String
  founders : List FounderInput
  rounds : Option (List RoundInput)
  esop : Option (List EsopInput)
deriving DecidableEq

/-- `SupabaseFunctions.createScenario`: each underlying insert's outcome is
passed as an `Except`; a thrown error at any step lands in the catch block,
which returns null.  The rounds (resp. ESOP) insert only happens when the
request carries a non-empty rounds (resp. esop) list. -/
def createScenario (req : CreateScenarioRequest)
    (scenarioRes : Except DbErr Scenario)
    (foundersRes : Except DbErr (List Founder))
    (roundsRes : Except DbErr (List Round))
    (esopRes : Except DbErr (List ESOP)) : Option ScenarioData :=
  match scenarioRes with
  | .error _ => none
  | .ok scenario =>
    match foundersRes with
    | .error _ => none
    | .ok founders =>
      let roundsStep : Except DbErr (List Round) :=
        match req.rounds with
        | some rs => if rs.length > 0 then roundsRes else .ok []
        | none => .ok []
      match roundsStep with
      | .error _ => none
      | .ok rounds =>
        let esopStep : Except DbErr (List ESOP) :=
          match req.esop with
          | some es => if es.length > 0 then esopRes else .ok []
          | none => .ok []
        match esopStep with
        | .error _ => none
        | .ok esop =>
          some { scenario := scenario, founders := founders,
                 rounds := rounds, esop := esop }

/-- `SupabaseFunctions.getScenarios`: an error yields the empty list. -/
def getScenarios (res : Except DbErr (List Scenario)) : List Scenario :=
  match res with
  | .ok l => l
  | .error _ => []

/-- `SupabaseFunctions.getScenarioById`: only the scenario query's error is
checked; a failed child query contributes `data || []`, i.e. the empty
list. -/
def getScenarioById (scenarioRes : Except DbErr Scenario)
    (foundersRes : Except DbErr (List Founder))
    (roundsRes : Except DbErr (List Round))
    (esopRes : Except DbErr (List ESOP)) : Option ScenarioData :=
  match scenarioRes with
  | .error _ => none
  | .ok s =>
    some { scenario := s
           founders := match foundersRes with | .ok l => l | .error _ => []
           rounds := match roundsRes with | .ok l => l | .error _ => []
           esop := match esopRes with | .ok l => l | .error _ => [] }

/-- `SupabaseFunctions.updateScenario`. -/
def updateScenario (res : Except DbErr Unit) : Bool :=
  match res with
  | .ok _ => true
  | .error _ => false

/-- `SupabaseFunctions.deleteScenario`: the outcomes of the three child
deletes are never inspected by the source; only the scenario delete's error
is checked. -/
def deleteScenario (_foundersDel _roundsDel _esopDel : Except DbErr Unit)
    (scenarioDel : Except DbErr Unit) : Bool :=
  match scenarioDel with
  | .ok _ => true
  | .error _ => false

/-- `SupabaseFunctions.addFounder`. -/
def addFounder (res : Except DbErr Founder) : Option Founder :=
  match res with
  | .ok f => some f
  | .error _ => none

/-- `SupabaseFunctions.updateFounder`. -/
def updateFounder (res : Except DbErr Unit) : Bool :=
  match res with
  | .ok _ => true
  | .error _ => false

/-- `SupabaseFunctions.deleteFounder`. -/
def deleteFounder (res : Except DbErr Unit) : Bool :=
  match res with
  | .ok _ => true
  | .error _ => false

/-- `SupabaseFunctions.addRound`. -/
def addRound (res : Except DbErr Round) : Option Round :=
  match res with
  | .ok r => some r
  | .error _ => none

/-- `SupabaseFunctions.updateRound`. -/
def updateRound (res : Except DbErr Unit) : Bool :=
  match res with
  | .ok _ => true
  | .error _ => false

/-- `SupabaseFunctions.deleteRound`. -/
def deleteRound (res : Except DbErr Unit) : Bool :=
  match res with
  | .ok _ => true
  | .error _ => false

/-- `SupabaseFunctions.addEsop`. -/
def addEsop (res : Except DbErr ESOP) : Option ESOP :=
  match res with
  | .ok e => some e
  | .error _ => none

/-- `SupabaseFunctions.updateEsop`. -/
def updateEsop (res : Except DbErr Unit) : Bool :=
  match res with
  | .ok _ => true
  | .error _ => false

/-- `SupabaseFunctions.deleteEsop`. -/
def deleteEsop (res : Except DbErr Unit) : Bool :=
  match res with
  | .ok _ => true
  | .error _ => false

/-- C9 counterexample: not every underlying storage error produces the
fallback.  `deleteScenario` never inspects the outcomes of its three child
deletes, so a failed founders delete with a succeeding scenario delete still
returns true, not false; and `getScenarioById` swallows a failed founders
query into an empty list, returning a non-null aggregate rather than null. -/
theorem gateway_error_swallowed_counterexample :
    deleteScenario (.error { message := "founders delete failed" }) (.ok ()) (.ok ())
      (.ok ()) = true ∧
    getScenarioById (.ok specScenario.scenario)
      (.error { message := "founders query failed" }) (.ok []) (.ok [])
      = some { scenario := specScenario.scenario, founders := [],
               rounds := [], esop := [] } :=
  ⟨rfl, rfl⟩

/-- C9 amended: every gateway operation reports its outcome as a boolean, an
optional value or a list (total functions — no exception reaches the
caller), and on a storage error at any step whose result the operation
inspects it returns its fallback: null for the creates and fetch-by-id, the
empty list for the scenario list, false for the updates and deletes.  For
`createScenario` the inspected steps are the scenario insert, the founders
insert, a requested non-empty rounds insert and a requested non-empty ESOP
insert, and an error at any of them yields null.  Two operations ignore
errors at some steps: `deleteScenario` never inspects its three child
deletes, so a child-delete error with a succeeding scenario delete returns
true, and `getScenarioById` maps a failed child query to an empty list,
returning a non-null aggregate. -/
theorem gateway_error_fallbacks (e : DbErr) (req : CreateScenarioRequest)
    (s : Scenario) (fs : List Founder)
    (fRes : Except DbErr (List Founder)) (rRes : Except DbErr (List Round))
    (eRes : Except DbErr (List ESOP))
    (r : RoundInput) (rs : List RoundInput) (p : EsopInput) (ps : List EsopInput)
    (d1 d2 d3 : Except DbErr Unit) :
    createScenario req (.error e) fRes rRes eRes = none ∧
    createScenario req (.ok s) (.error e) rRes eRes = none ∧
    createScenario { req with rounds := some (r :: rs) } (.ok s) (.ok fs)
      (.error e) eRes = none ∧
    createScenario { req with esop := some (p :: ps) } (.ok s) (.ok fs)
      rRes (.error e) = none ∧
    getScenarios (.error e) = [] ∧
    getScenarioById (.error e) fRes rRes eRes = none ∧
    updateScenario (.error e) = false ∧
    deleteScenario d1 d2 d3 (.error e) = false ∧
    addFounder (.error e) = none ∧
    updateFounder (.error e) = false ∧
    deleteFounder (.error e) = false ∧
    addRound (.error e) = none ∧
    updateRound (.error e) = false ∧
    deleteRound (.error e) = false ∧
    addEsop (.error e) = none ∧
    updateEsop (.error e) = false ∧
    deleteEsop (.error e) = false ∧
    deleteScenario (.error e) d2 d3 (.ok ()) = true ∧
    getScenarioById (.ok s) (.error e) (.error e) (.error e)
      = some { scenario := s, founders := [], rounds := [], esop := [] } := by
  refine ⟨rfl, rfl, by simp [createScenario], ?_, rfl, rfl, rfl, rfl, rfl,
    rfl, rfl, rfl, rfl, rfl, rfl, rfl, rfl, rfl, rfl⟩
  cases hro : req.rounds with
  | none => simp [createScenario, hro]
  | some l =>
    cases l with
    | nil => simp [createScenario, hro]
    | cons x xs =>
      cases rRes with
      | error e2 => simp [createScenario, hro]
      | ok rds => simp [createScenario, hro]

/-- The persisted tables as `createScenario` touches them. -/
structure Store where
  scenarios : List Scenario
  founders : List Founder
  rounds : List Round
  esops : List ESOP
deriving DecidableEq

/-- The founder rows the founders insert commits: each input tagged with the
new scenario's id (row ids are assigned by the store and irrelevant here). -/
def founderRows (sid : String) (fs : List FounderInput) : List Founder :=
  fs.map (fun f => { id := "", scenario_id := sid, name := f.name, equity := f.equity })

/-- The round rows the rounds insert commits. -/
def roundRows (sid : String) (rs : List RoundInput) : List Round :=
  rs.map (fun r => { id := "", scenario_id := sid, round_name := r.round_name,
                     investment := r.investment, valuation := r.valuation })

/-- The ESOP rows the ESOP insert commits. -/
def esopRows (sid : String) (es : List EsopInput) : List ESOP :=
  es.map (fun e => { id := "", scenario_id := sid, percentage := e.percentage })

/-- `SupabaseFunctions.createScenario` threading the store state: each insert
either commits its rows and succeeds (its flag true) or fails leaving the
store untouched and throwing into the catch block.  The catch block only
returns null — nothing committed by earlier inserts is undone. -/
def createScenarioSt (req : CreateScenarioRequest) (newScenario : Scenario)
    (scenarioOk foundersOk roundsOk esopOk : Bool) (st : Store) :
    Option ScenarioData × Store :=
  if !scenarioOk then (none, st)
  else
    let st1 := { st with scenarios := st.scenarios ++ [newScenario] }
    if !foundersOk then (none, st1)
    else
      let fs := founderRows newScenario.id req.founders
      let st2 := { st1 with founders := st1.founders ++ fs }
      let roundsStep : Option (List Round × Store) :=
        match req.rounds with
        | some rs =>
          if rs.length > 0 then
            if roundsOk then
              some (roundRows newScenario.id rs,
                { st2 with rounds := st2.rounds ++ roundRows newScenario.id rs })
            else none
          else some ([], st2)
        | none => some ([], st2)
      match roundsStep with
      | none => (none, st2)
      | some (rds, st3) =>
        let esopStep : Option (List ESOP × Store) :=
          match req.esop with
          | some es =>
            if es.length > 0 then
              if esopOk then
                some (esopRows newScenario.id es,
                  { st3 with esops := st3.esops ++ esopRows newScenario.id es })
              else none
            else some ([], st3)
          | none => some ([], st3)
        match esopStep with
        | none => (none, st3)
        | some (es, st4) =>
          (some { scenario := newScenario, founders := fs,
                  rounds := rds, esop := es }, st4)

/-- C10: `createScenario` is not atomic.  Whichever later insert fails —
founders, a requested non-empty rounds insert, or a requested non-empty ESOP
insert — the caller gets null, yet the scenario row (and every other insert
that already committed) remains in the store. -/
theorem create_scenario_not_atomic (req : CreateScenarioRequest)
    (ns : Scenario) (st : Store) (rOk eOk : Bool)
    (r : RoundInput) (rs : List RoundInput) (p : EsopInput) (ps : List EsopInput) :
    (createScenarioSt req ns true false rOk eOk st).1 = none ∧
    (createScenarioSt req ns true false rOk eOk st).2.scenarios
      = st.scenarios ++ [ns] ∧
    (createScenarioSt { req with rounds := some (r :: rs) } ns
        true true false eOk st).1 = none ∧
    (createScenarioSt { req with rounds := some (r :: rs) } ns
        true true false eOk st).2.scenarios = st.scenarios ++ [ns] ∧
    (createScenarioSt { req with rounds := some (r :: rs) } ns
        true true false eOk st).2.founders
      = st.founders ++ founderRows ns.id req.founders ∧
    (createScenarioSt { req with rounds := none, esop := some (p :: ps) } ns
        true true rOk false st).1 = none ∧
    (createScenarioSt { req with rounds := none, esop := some (p :: ps) } ns
        true true rOk false st).2.scenarios = st.scenarios ++ [ns] ∧
    (createScenarioSt { req with rounds := none, esop := some (p :: ps) } ns
        true true rOk false st).2.founders
      = st.founders ++ founderRows ns.id req.founders := by
  refine ⟨rfl, rfl, ?_, ?_, ?_, ?_, ?_, ?_⟩ <;> simp [createScenarioSt]
